import Mathlib

/-!
# SERBAS browser controller (`static/script.js`)

A shallow embedding of the client controller of the Smart Emergency Room Bed
Allocation System.  The controller is a set of `async` functions that read form
fields from the DOM, call the backend with `fetch`, and write markup,
notifications and alerts back to the page.

* JavaScript values that reach the controller (form strings, parsed numbers,
  parsed JSON bodies) are the types `JSNum` and `Val`.
* The page is the record `Page`; everything the controller does to the outside
  world (requests, alerts, notifications, console output) is appended to
  `Page.log` in the order in which it happens.
* What the outside world answers (the result of a `fetch`, the answer to a
  `confirm` dialog) is an explicit argument of the function that asks for it.
-/

namespace Serbas

/-! ## Numbers -/

/-- A JavaScript number as the controller obtains it: `NaN`, an infinity, or the
decimal value `mantissa * 10 ^ exp10` read from text.  The decimal is kept
exact: rounding to the nearest double is not modelled, except for the one
effect on which the controller branches, whether the value rounds to zero,
which `JSNum.isZero` decides. -/
inductive JSNum
  | nan
  | infinity (negative : Bool)
  | dec (mantissa : Int) (exp10 : Int)
  deriving DecidableEq, Repr

namespace JSNum

/-- The number is `+0` or `-0` as a double: the mantissa is zero, or the
magnitude is at most `2 ^ (-1075)` (half of the least subnormal, which rounds
to zero).  A non-zero mantissa needs an exponent below `-323` to get there, so
the powers are only computed then. -/
def isZero : JSNum → Bool
  | nan => false
  | infinity _ => false
  | dec m e => m == 0 || (e < -323 && decide (m.natAbs * 2 ^ 1075 ≤ 10 ^ (-e).toNat))

/-- ToBoolean on a number: false for `NaN`, `+0` and `-0`. -/
def truthy : JSNum → Bool
  | nan => false
  | n => !n.isZero

/-- The comparison `n > 0`. -/
def positive : JSNum → Bool
  | nan => false
  | infinity negative => !negative
  | dec m e => decide (0 < m) && !(dec m e).isZero

/-- The comparison `a <= b` of two numbers: false as soon as one side is
`NaN`. -/
def le : JSNum → JSNum → Bool
  | nan, _ => false
  | _, nan => false
  | infinity true, _ => true
  | _, infinity false => true
  | infinity false, _ => false
  | _, infinity true => false
  | dec m e, dec n f =>
    let x := if (dec m e).isZero then 0 else m
    let y := if (dec n f).isZero then 0 else n
    if e ≤ f then decide (x ≤ y * 10 ^ (f - e).toNat)
    else decide (x * 10 ^ (e - f).toNat ≤ y)

/-- Drop the zeros at the end of a digit string. -/
def stripTrailingZeros (ds : List Char) : List Char :=
  (ds.reverse.dropWhile (fun c => c == '0')).reverse

/-- Number::toString in radix 10, for a value whose shortest decimal form is
the decimal held. -/
def toStr : JSNum → String
  | nan => "NaN"
  | infinity negative => if negative then "-Infinity" else "Infinity"
  | dec m e =>
    if (dec m e).isZero then "0"
    else
      let sign := if m < 0 then "-" else ""
      let all := Nat.toDigits 10 m.natAbs
      let s := stripTrailingZeros all
      let k : Int := s.length
      let n : Int := all.length + e
      let body : List Char :=
        if k ≤ n ∧ n ≤ 21 then s ++ List.replicate (n - k).toNat '0'
        else if 0 < n ∧ n ≤ 21 then s.take n.toNat ++ '.' :: s.drop n.toNat
        else if -6 < n ∧ n ≤ 0 then '0' :: '.' :: (List.replicate (-n).toNat '0' ++ s)
        else
          let ex := n - 1
          let es := (if ex < 0 then '-' else '+') :: Nat.toDigits 10 ex.natAbs
          if k = 1 then s ++ 'e' :: es
          else s.take 1 ++ '.' :: (s.drop 1 ++ 'e' :: es)
      sign ++ String.mk body

end JSNum

/-! ## Reading numbers from text: `parseInt`, `parseFloat`, StringToNumber -/

/-- WhiteSpace and LineTerminator code points, the characters that TrimString
removes. -/
def isJSWhiteSpace (c : Char) : Bool :=
  let n := c.toNat
  n == 9 || n == 10 || n == 11 || n == 12 || n == 13 || n == 32 || n == 160 ||
  n == 0x1680 || (0x2000 ≤ n && n ≤ 0x200A) || n == 0x2028 || n == 0x2029 ||
  n == 0x202F || n == 0x205F || n == 0x3000 || n == 0xFEFF

/-- TrimString at the start. -/
def trimStart (cs : List Char) : List Char := cs.dropWhile isJSWhiteSpace

/-- TrimString at the end. -/
def trimEnd (cs : List Char) : List Char := (cs.reverse.dropWhile isJSWhiteSpace).reverse

/-- The value of a digit in a radix up to 36, if the character is one. -/
def digitValue (radix : Nat) (c : Char) : Option Nat :=
  let n := c.toNat
  let v : Option Nat :=
    if 48 ≤ n ∧ n ≤ 57 then some (n - 48)
    else if 97 ≤ n ∧ n ≤ 122 then some (n - 87)
    else if 65 ≤ n ∧ n ≤ 90 then some (n - 55)
    else none
  match v with
  | some d => if d < radix then some d else none
  | none => none

/-- The longest run of radix digits at the start of the text, and what follows. -/
def takeDigits (radix : Nat) : List Char → List Nat × List Char
  | [] => ([], [])
  | c :: cs =>
    match digitValue radix c with
    | some d => let r := takeDigits radix cs; (d :: r.1, r.2)
    | none => ([], c :: cs)

/-- The integer written by a digit list. -/
def digitsToNat (radix : Nat) (ds : List Nat) : Nat :=
  ds.foldl (fun acc d => acc * radix + d) 0

/-- The sign at the start of the text, and what follows. -/
def takeSign : List Char → Bool × List Char
  | '-' :: cs => (true, cs)
  | '+' :: cs => (false, cs)
  | cs => (false, cs)

/-- The global `parseInt(string)` with no radix argument: leading white space
is skipped, then a sign, then `0x`/`0X` selects radix 16; the longest run of
digits is read and whatever follows is ignored; no digit at all gives `NaN`.
The integer is kept as written, also when it is too large for a double. -/
def parseInt (s : String) : JSNum :=
  let signed := takeSign (trimStart s.data)
  let negative := signed.1
  let body : Nat × List Char :=
    match signed.2 with
    | '0' :: 'x' :: cs => (16, cs)
    | '0' :: 'X' :: cs => (16, cs)
    | cs => (10, cs)
  let ds := (takeDigits body.1 body.2).1
  if ds = [] then JSNum.nan
  else
    let n : Int := digitsToNat body.1 ds
    JSNum.dec (if negative then -n else n) 0

/-- The optional ExponentPart (`e`/`E`, optional sign, digits) at the start of
the text: its value, or `0` when the text does not start with one. -/
def takeExponent : List Char → Int × List Char
  | c :: cs =>
    if c = 'e' ∨ c = 'E' then
      let signed := takeSign cs
      let r := takeDigits 10 signed.2
      if r.1 = [] then (0, c :: cs)
      else
        let n : Int := digitsToNat 10 r.1
        (if signed.1 then -n else n, r.2)
    else (0, c :: cs)
  | [] => (0, [])

/-- The longest prefix of the text that is a StrDecimalLiteral (optional sign,
then `Infinity`, or digits with an optional fraction and exponent), as a
number, and what follows; `none` when no prefix is one. -/
def strDecimalLiteral (cs : List Char) : Option (JSNum × List Char) :=
  let signed := takeSign cs
  let negative := signed.1
  match signed.2 with
  | 'I' :: 'n' :: 'f' :: 'i' :: 'n' :: 'i' :: 't' :: 'y' :: rest =>
    some (JSNum.infinity negative, rest)
  | body =>
    let ip := takeDigits 10 body
    let frac : Option (List Nat × List Char) :=
      match ip.2 with
      | '.' :: after =>
        let fp := takeDigits 10 after
        if ip.1 = [] ∧ fp.1 = [] then none else some fp
      | other => if ip.1 = [] then none else some ([], other)
    match frac with
    | none => none
    | some fp =>
      let ex := takeExponent fp.2
      let n : Int := digitsToNat 10 (ip.1 ++ fp.1)
      some (JSNum.dec (if negative then -n else n) (ex.1 - fp.1.length), ex.2)

/-- The global `parseFloat(string)`: leading white space is skipped and the
longest decimal literal is read; none gives `NaN`. -/
def parseFloat (s : String) : JSNum :=
  match strDecimalLiteral (trimStart s.data) with
  | some r => r.1
  | none => JSNum.nan

/-- StringToNumber: the whole text, white space at both ends apart, must be a
numeric literal; the empty text is `0`. -/
def stringToNumber (s : String) : JSNum :=
  let cs := trimEnd (trimStart s.data)
  let whole (radix : Nat) (ds : List Char) : JSNum :=
    let r := takeDigits radix ds
    if r.1 ≠ [] ∧ r.2 = [] then JSNum.dec (digitsToNat radix r.1) 0 else JSNum.nan
  match cs with
  | [] => JSNum.dec 0 0
  | '0' :: 'x' :: ds => whole 16 ds
  | '0' :: 'X' :: ds => whole 16 ds
  | '0' :: 'o' :: ds => whole 8 ds
  | '0' :: 'O' :: ds => whole 8 ds
  | '0' :: 'b' :: ds => whole 2 ds
  | '0' :: 'B' :: ds => whole 2 ds
  | _ =>
    match strDecimalLiteral cs with
    | some (n, []) => n
    | _ => JSNum.nan

/-! ## Values -/

/-- A JavaScript value as `JSON.parse` or a property lookup can produce it. -/
inductive Val
  | undefined
  | null
  | bool (b : Bool)
  | num (n : JSNum)
  | str (s : String)
  | arr (items : List Val)
  | obj (fields : List (String × Val))

namespace Val

/-- ToBoolean. -/
def truthy : Val → Bool
  | undefined => false
  | null => false
  | bool b => b
  | num n => n.truthy
  | str s => s != ""
  | arr _ => true
  | obj _ => true

mutual
/-- ToString, as a template literal applies it to a substitution. -/
def toStr : Val → String
  | undefined => "undefined"
  | null => "null"
  | bool b => if b then "true" else "false"
  | num n => n.toStr
  | str s => s
  | arr items => joinItems items
  | obj _ => "[object Object]"
termination_by structural v => v
/-- Array.prototype.join with the separator `,`: `null` and `undefined`
elements are written as the empty text. -/
def joinItems : List Val → String
  | [] => ""
  | v :: rest =>
    (match v with
      | undefined => ""
      | null => ""
      | w => toStr w) ++ (match rest with | [] => "" | _ => ",") ++ joinItems rest
termination_by structural l => l
end

/-- The number of UTF-16 code units of a text. -/
def utf16Length (s : String) : Nat :=
  (s.data.map (fun c => if c.toNat < 0x10000 then 1 else 2)).sum

/-- Property lookup `v.key` for a key that is a plain name.  `none` is the
TypeError thrown on `null` and `undefined`.  An object gives the parsed field
or `undefined`; an array and a text have `length`; every other lookup the
controller makes is `undefined`. -/
def get (v : Val) (key : String) : Option Val :=
  match v with
  | undefined => none
  | null => none
  | obj fields =>
    match fields.find? (fun f => f.1 == key) with
    | some f => some f.2
    | none => some undefined
  | arr items => some (if key = "length" then num (JSNum.dec items.length 0) else undefined)
  | str s => some (if key = "length" then num (JSNum.dec (utf16Length s) 0) else undefined)
  | _ => some undefined

/-- ToNumber, as the comparison `v > 0` applies it. -/
def toNumber : Val → JSNum
  | undefined => JSNum.nan
  | null => JSNum.dec 0 0
  | bool b => JSNum.dec (if b then 1 else 0) 0
  | num n => n
  | str s => stringToNumber s
  | arr items => stringToNumber (joinItems items)
  | obj _ => JSNum.nan

/-- The expression `a || b`. -/
def orElse (a b : Val) : Val := if a.truthy then a else b

/-- Property lookup that cannot throw: `v?.key`, or `v.key` where an earlier
lookup on `v` has already succeeded. -/
def prop (v : Val) (key : String) : Val := (v.get key).getD undefined

end Val

/-! ## The page and what the controller does to the outside world -/

/-- A value inside a request body after `JSON.stringify`. -/
inductive Scalar
  | null
  | num (n : JSNum)
  | str (s : String)
  deriving DecidableEq, Repr

/-- A number as `JSON.stringify` writes it: `NaN` and the infinities become
`null`. -/
def jsonNumber : JSNum → Scalar
  | JSNum.dec m e => Scalar.num (JSNum.dec m e)
  | _ => Scalar.null

/-- An effect of the controller that leaves the page. -/
inductive Event
  | preventDefault
  | alert (message : String)
  | confirm (message : String)
  | fetch (method : String) (url : String) (body : Option (List (String × Scalar)))
  | showNotification (message : String) (type : String)
  | showLoginPage
  | formReset
  | consoleError (label : String)
  deriving DecidableEq, Repr

/-- What a `fetch` comes to: the promise rejects, or a response arrives with
its `ok` flag and status; `body` is the value `response.json()` resolves to,
`none` when that promise rejects. -/
inductive FetchResult
  | rejected
  | response (ok : Bool) (status : Nat) (body : Option Val)

/-- The global `currentHospital` once set by `login`. -/
structure Hospital where
  id : String
  name : Val

/-- The notification element that `showNotification` appends to the body. -/
structure Toast where
  className : String
  innerHTML : String
  deriving DecidableEq, Repr

/-- The state the controller reads and writes: the global `currentHospital`
(`none` is `null`), the `active` class of the two pages, the `display` style of
the two authentication forms, and per element id the `value`, `innerHTML` and
`textContent`; `toast` is the notification on screen and `log` the effects so
far, oldest first.  Every element the controller looks up by id is taken to
exist. -/
structure Page where
  currentHospital : Option Hospital
  loginPageActive : Bool
  dashboardPageActive : Bool
  loginFormDisplay : String
  registerFormDisplay : String
  value : String → String
  innerHTML : String → String
  textContent : String → String
  toast : Option Toast
  log : List Event

namespace Page

/-- Record an effect. -/
def emit (e : Event) (p : Page) : Page := { p with log := p.log ++ [e] }

/-- Assignment to `document.getElementById(id).value`. -/
def setValue (id v : String) (p : Page) : Page :=
  { p with value := fun k => if k = id then v else p.value k }

/-- Assignment to `document.getElementById(id).innerHTML`. -/
def setInnerHTML (id html : String) (p : Page) : Page :=
  { p with innerHTML := fun k => if k = id then html else p.innerHTML k }

/-- Assignment to `document.getElementById(id).textContent`. -/
def setTextContent (id text : String) (p : Page) : Page :=
  { p with textContent := fun k => if k = id then text else p.textContent k }

end Page

/-- The state in which a `try` block stops: at its end, or at a `throw` (a
rejected promise included), which hands over to the `catch` block. -/
inductive Completion
  | normal (p : Page)
  | thrown (p : Page)

/-! ## Helpers of the controller -/

/-- The function `showLoginPage`. -/
def showLoginPage (p : Page) : Page :=
  { p.emit Event.showLoginPage with loginPageActive := true, dashboardPageActive := false }

/-- The function `showLogin`. -/
def showLogin (p : Page) : Page :=
  { p with registerFormDisplay := "none", loginFormDisplay := "block" }

/-- The function `showRegister`. -/
def showRegister (p : Page) : Page :=
  { p with loginFormDisplay := "none", registerFormDisplay := "block" }

/-- The markup `showLoading` writes. -/
def loadingMarkup (message : String) : String :=
  "\n        <tr>\n            <td colspan=\"9\" class=\"loading\">\n                <i class=\"fas fa-spinner fa-spin\"></i>\n                <p>"
    ++ message ++ "</p>\n            </td>\n        </tr>\n    "

/-- The function `showLoading`. -/
def showLoading (tableId message : String) (p : Page) : Page :=
  p.setInnerHTML tableId (loadingMarkup message)

/-- The markup `showError` writes. -/
def errorMarkup (message : String) : String :=
  "\n        <tr>\n            <td colspan=\"9\" class=\"empty-state\">\n                <i class=\"fas fa-exclamation-triangle\"></i>\n                <p>"
    ++ message ++ "</p>\n            </td>\n        </tr>\n    "

/-- The function `showError`. -/
def showError (tableId message : String) (p : Page) : Page :=
  p.setInnerHTML tableId (errorMarkup message)

/-- The function `showNotification`: earlier notifications are removed and a new
one is appended to the body.  (It removes itself after five seconds; the timer
is not part of the state.) -/
def showNotification (message : Val) (type : String) (p : Page) : Page :=
  { p.emit (Event.showNotification message.toStr type) with
    toast := some
      { className := "notification " ++ type
        innerHTML := "\n        <span>" ++ message.toStr ++
          "</span>\n        <button onclick=\"this.parentElement.remove()\">&times;</button>\n    " } }

/-- Assignment of a value to `textContent`: `null` and `undefined` are written
as the empty text, everything else through ToString. -/
def textOf : Val → String
  | Val.null => ""
  | Val.undefined => ""
  | v => v.toStr

/-! ## Row templates -/

/-- One row of the recent allocations table (`loadDashboardData`). -/
def recentPatientRow (patient : Val) : Option String := do
  let name ← patient.get "name"
  let age ← patient.get "age"
  let condition ← patient.get "condition"
  let severity ← patient.get "severity"
  let bedType ← patient.get "bed_type"
  let admissionDate ← patient.get "admission_date"
  let bedId ← patient.get "bed_id"
  pure ("\n                <tr>\n                    <td>" ++ name.toStr
    ++ "</td>\n                    <td>" ++ age.toStr
    ++ "</td>\n                    <td>" ++ condition.toStr
    ++ "</td>\n                    <td><span class=\"badge " ++ severity.toStr
    ++ "\">" ++ severity.toStr
    ++ "</span></td>\n                    <td>" ++ bedType.toStr
    ++ "</td>\n                    <td>" ++ admissionDate.toStr
    ++ "</td>\n                    <td>" ++ (bedId.orElse (Val.str "N/A")).toStr
    ++ "</td>\n                </tr>\n            ")

/-- The row shown when there is no recent allocation. -/
def noRecentAllocations : String :=
  "\n                <tr>\n                    <td colspan=\"7\" class=\"empty-state\">\n                        <i class=\"fas fa-user-injured\"></i>\n                        <p>No recent allocations</p>\n                    </td>\n                </tr>\n            "

/-- The comparison `bed.status === 'available'`. -/
def isAvailable : Val → Bool
  | Val.str s => s == "available"
  | _ => false

/-- One row of the beds table (`loadAvailableBeds`). -/
def bedRow (bed : Val) : Option String := do
  let id ← bed.get "id"
  let type ← bed.get "type"
  let ward ← bed.get "ward"
  let status ← bed.get "status"
  let lastOccupied ← bed.get "last_occupied"
  pure ("\n                <tr>\n                    <td>" ++ id.toStr
    ++ "</td>\n                    <td>" ++ type.toStr
    ++ "</td>\n                    <td>" ++ ward.toStr
    ++ "</td>\n                    <td><span class=\"badge " ++ (if isAvailable status then "low" else "high")
    ++ "\">" ++ status.toStr
    ++ "</span></td>\n                    <td>" ++ (lastOccupied.orElse (Val.str "Never")).toStr
    ++ "</td>\n                </tr>\n            ")

/-- The row shown when there is no bed. -/
def noBedsFound : String :=
  "\n                <tr>\n                    <td colspan=\"5\" class=\"empty-state\">\n                        <i class=\"fas fa-bed\"></i>\n                        <p>No beds found</p>\n                    </td>\n                </tr>\n            "

/-- The text of the `onclick` attribute of a row button: a call of `fn` with
the patient id and name, each between apostrophes. -/
def onclickCall (fn id name : String) : String :=
  fn ++ "('" ++ id ++ "', '" ++ name ++ "')"

/-- The inner template of a patient row: the `Extend 2 Days` button. -/
def extendButton (id name : String) : String :=
  "<button class=\"btn btn-sm btn-success\" onclick=\"" ++ onclickCall "extendStay" id name
    ++ "\" style=\"margin-bottom: 5px;\">\n                                Extend 2 Days\n                            </button><br>"

/-- The `Discharge` button of a patient row. -/
def dischargeButton (id name : String) : String :=
  "<button class=\"btn btn-sm btn-warning\" onclick=\"" ++ onclickCall "dischargePatient" id name
    ++ "\">\n                            Discharge\n                        </button>"

/-- The substitution `patient.can_extend ? (the Extend button) : ''` of a
patient row. -/
def extendSlot (patient : Val) : Option String := do
  let canExtend ← patient.get "can_extend"
  if canExtend.truthy then do
    let id ← patient.get "id"
    let name ← patient.get "name"
    pure (extendButton id.toStr name.toStr)
  else pure ""

/-- One row of the patients table (`loadAllocatedPatients`). -/
def patientRow (patient : Val) : Option String := do
  let name ← patient.get "name"
  let age ← patient.get "age"
  let bloodGroup ← patient.get "blood_group"
  let condition ← patient.get "condition"
  let severity ← patient.get "severity"
  let bedId ← patient.get "bed_id"
  let admissionDate ← patient.get "admission_date"
  let expectedDischarge ← patient.get "expected_discharge"
  let extend ← extendSlot patient
  let id ← patient.get "id"
  pure ("\n                <tr>\n                    <td>" ++ name.toStr
    ++ "</td>\n                    <td>" ++ age.toStr
    ++ "</td>\n                    <td>" ++ bloodGroup.toStr
    ++ "</td>\n                    <td>" ++ condition.toStr
    ++ "</td>\n                    <td><span class=\"badge " ++ severity.toStr
    ++ "\">" ++ severity.toStr
    ++ "</span></td>\n                    <td>" ++ bedId.toStr
    ++ "</td>\n                    <td>" ++ admissionDate.toStr
    ++ "</td>\n                    <td>" ++ (expectedDischarge.orElse (Val.str "N/A")).toStr
    ++ "</td>\n                    <td>\n                        " ++ extend
    ++ "\n                        " ++ dischargeButton id.toStr name.toStr
    ++ "\n                    </td>\n                </tr>\n            ")

/-- The row shown when no patient is allocated. -/
def noPatientsAllocated : String :=
  "\n                <tr>\n                    <td colspan=\"9\" class=\"empty-state\">\n                        <i class=\"fas fa-user-injured\"></i>\n                        <p>No patients currently allocated</p>\n                    </td>\n                </tr>\n            "

/-- The call `items.map(row)` with a callback that may throw: the rows in the
order of the items, or the first throw. -/
def mapRows (row : Val → Option String) : List Val → Option (List String)
  | [] => some []
  | v :: rest => do
    let first ← row v
    let others ← mapRows row rest
    pure (first :: others)

/-- The table body built from a list field of the response:
`list && list.length > 0 ? list.map(row).join('') : empty`.  `none` is a
TypeError: a row that reads a property of `null`, or `map` called on a value
that is not an array. -/
def tableMarkup (list : Val) (row : Val → Option String) (empty : String) : Option String := do
  if list.truthy then
    let length ← list.get "length"
    if length.toNumber.positive then
      match list with
      | Val.arr items => do
        let rows ← mapRows row items
        pure (String.join rows)
      | _ => none
    else pure empty
  else pure empty

/-! ## Data loading functions

An `async` function runs up to its first `await` when it is called: a load
function shows the loading row and sends its request at once (`…Start`), and
goes on when the response is there (`…Finish`). -/

/-- The function `loadDashboardData` up to `await fetch(…)`. -/
def loadDashboardDataStart (p : Page) : Page :=
  (showLoading "recentAllocationsTable" "Loading recent allocations..." p).emit
    (Event.fetch "GET" "/api/dashboard-data" none)

/-- The `try` block of `loadDashboardData` after the request. -/
def loadDashboardDataBody (r : FetchResult) (p : Page) : Completion :=
  match r with
  | FetchResult.rejected => Completion.thrown p
  | FetchResult.response ok _ body =>
    if !ok then Completion.thrown p
    else
      match body with
      | none => Completion.thrown p
      | some data =>
        match data.get "error" with
        | none => Completion.thrown p
        | some error =>
          if error.truthy then
            Completion.normal (showLoginPage (p.emit (Event.alert "Please login again")))
          else
            let stats := data.prop "stats"
            let zero := Val.num (JSNum.dec 0 0)
            let p := p.setTextContent "totalBeds" (textOf ((stats.prop "total_beds").orElse zero))
            let p := p.setTextContent "availableBeds" (textOf ((stats.prop "available_beds").orElse zero))
            let p := p.setTextContent "icuBeds" (textOf ((stats.prop "icu_beds").orElse zero))
            let p := p.setTextContent "flexibleBeds" (textOf ((stats.prop "flexible_beds").orElse zero))
            let p := p.setTextContent "occupiedBeds" (textOf ((stats.prop "occupied_beds").orElse zero))
            match tableMarkup (data.prop "recent_patients") recentPatientRow noRecentAllocations with
            | some html => Completion.normal (p.setInnerHTML "recentAllocationsTable" html)
            | none => Completion.thrown p

/-- The function `loadDashboardData` from the response on. -/
def loadDashboardDataFinish (r : FetchResult) (p : Page) : Page :=
  match loadDashboardDataBody r p with
  | Completion.normal q => q
  | Completion.thrown q =>
    showError "recentAllocationsTable" "Error loading dashboard data"
      (q.emit (Event.consoleError "Error loading dashboard data:"))

/-- The function `loadDashboardData`. -/
def loadDashboardData (r : FetchResult) (p : Page) : Page :=
  loadDashboardDataFinish r (loadDashboardDataStart p)

/-- The function `loadAvailableBeds` up to `await fetch(…)`. -/
def loadAvailableBedsStart (p : Page) : Page :=
  (showLoading "bedsTable" "Loading beds..." p).emit (Event.fetch "GET" "/api/available-beds" none)

/-- The `try` block of `loadAvailableBeds` after the request. -/
def loadAvailableBedsBody (r : FetchResult) (p : Page) : Completion :=
  match r with
  | FetchResult.rejected => Completion.thrown p
  | FetchResult.response ok _ body =>
    if !ok then Completion.thrown p
    else
      match body with
      | none => Completion.thrown p
      | some data =>
        match data.get "error" with
        | none => Completion.thrown p
        | some error =>
          if error.truthy then
            Completion.normal (showLoginPage (p.emit (Event.alert "Please login again")))
          else
            match tableMarkup (data.prop "beds") bedRow noBedsFound with
            | some html => Completion.normal (p.setInnerHTML "bedsTable" html)
            | none => Completion.thrown p

/-- The function `loadAvailableBeds` from the response on. -/
def loadAvailableBedsFinish (r : FetchResult) (p : Page) : Page :=
  match loadAvailableBedsBody r p with
  | Completion.normal q => q
  | Completion.thrown q =>
    showError "bedsTable" "Error loading bed data" (q.emit (Event.consoleError "Error loading beds:"))

/-- The function `loadAvailableBeds`. -/
def loadAvailableBeds (r : FetchResult) (p : Page) : Page :=
  loadAvailableBedsFinish r (loadAvailableBedsStart p)

/-- The function `loadAllocatedPatients` up to `await fetch(…)`. -/
def loadAllocatedPatientsStart (p : Page) : Page :=
  (showLoading "patientsTable" "Loading patients..." p).emit
    (Event.fetch "GET" "/api/allocated-patients" none)

/-- The `try` block of `loadAllocatedPatients` after the request. -/
def loadAllocatedPatientsBody (r : FetchResult) (p : Page) : Completion :=
  match r with
  | FetchResult.rejected => Completion.thrown p
  | FetchResult.response ok _ body =>
    if !ok then Completion.thrown p
    else
      match body with
      | none => Completion.thrown p
      | some data =>
        match data.get "error" with
        | none => Completion.thrown p
        | some error =>
          if error.truthy then
            Completion.normal (showLoginPage (p.emit (Event.alert "Please login again")))
          else
            match tableMarkup (data.prop "patients") patientRow noPatientsAllocated with
            | some html => Completion.normal (p.setInnerHTML "patientsTable" html)
            | none => Completion.thrown p

/-- The function `loadAllocatedPatients` from the response on. -/
def loadAllocatedPatientsFinish (r : FetchResult) (p : Page) : Page :=
  match loadAllocatedPatientsBody r p with
  | Completion.normal q => q
  | Completion.thrown q =>
    showError "patientsTable" "Error loading patient data"
      (q.emit (Event.consoleError "Error loading patients:"))

/-- The function `loadAllocatedPatients`. -/
def loadAllocatedPatients (r : FetchResult) (p : Page) : Page :=
  loadAllocatedPatientsFinish r (loadAllocatedPatientsStart p)

/-- The three views that a refresh reloads. -/
inductive View
  | dashboard
  | beds
  | patients
  deriving DecidableEq, Repr

/-- The load function of a view from its response on. -/
def View.finish : View → FetchResult → Page → Page
  | View.dashboard => loadDashboardDataFinish
  | View.beds => loadAvailableBedsFinish
  | View.patients => loadAllocatedPatientsFinish

/-- The load functions that are waiting go on as their responses arrive:
`arrivals` lists, in the order of arrival, each response with the view it
belongs to. -/
def settle (arrivals : List (View × FetchResult)) (p : Page) : Page :=
  arrivals.foldl (fun q arrival => arrival.1.finish arrival.2 q) p

/-- The three calls `loadDashboardData(); loadAvailableBeds();
loadAllocatedPatients();` that refresh the views: none is awaited, so the three
requests leave first, in this order; the load functions then go on with the
responses that arrive, in the order of `arrivals`. -/
def refreshAll (arrivals : List (View × FetchResult)) (p : Page) : Page :=
  let p := loadDashboardDataStart p
  let p := loadAvailableBedsStart p
  let p := loadAllocatedPatientsStart p
  settle arrivals p

/-- The object `hospitalData` that `registerHospital` reads from the form. -/
structure HospitalData where
  hospital_id : String
  name : String
  address : String
  contact : String
  total_beds : JSNum
  icu_beds : JSNum
  password : String

/-- The registration form as `registerHospital` reads it. -/
def readHospitalData (p : Page) : HospitalData :=
  { hospital_id := p.value "regHospitalId"
    name := p.value "regHospitalName"
    address := p.value "regAddress"
    contact := p.value "regContact"
    total_beds := parseInt (p.value "regBeds")
    icu_beds := parseInt (p.value "regIcuBeds")
    password := p.value "regPassword" }

/-- The body `JSON.stringify(hospitalData)`. -/
def HospitalData.toBody (h : HospitalData) : List (String × Scalar) :=
  [("hospital_id", Scalar.str h.hospital_id), ("name", Scalar.str h.name),
   ("address", Scalar.str h.address), ("contact", Scalar.str h.contact),
   ("total_beds", jsonNumber h.total_beds), ("icu_beds", jsonNumber h.icu_beds),
   ("password", Scalar.str h.password)]

/-- The `try` block of `registerHospital` after the request. -/
def registerHospitalBody (h : HospitalData) (r : FetchResult) (p : Page) : Completion :=
  match r with
  | FetchResult.rejected => Completion.thrown p
  | FetchResult.response _ _ none => Completion.thrown p
  | FetchResult.response _ _ (some data) =>
    match data.get "success" with
    | none => Completion.thrown p
    | some success =>
      if success.truthy then
        let p := p.emit (Event.alert (data.prop "message").toStr)
        let p := showLogin p
        let p := p.setValue "hospitalId" h.hospital_id
        let p := p.setValue "regHospitalId" ""
        let p := p.setValue "regHospitalName" ""
        let p := p.setValue "regAddress" ""
        let p := p.setValue "regContact" ""
        let p := p.setValue "regBeds" ""
        let p := p.setValue "regIcuBeds" ""
        Completion.normal (p.setValue "regPassword" "")
      else Completion.normal (p.emit (Event.alert (data.prop "message").toStr))

/-- The function `registerHospital`. -/
def registerHospital (r : FetchResult) (p : Page) : Page :=
  let h := readHospitalData p
  if h.hospital_id = "" ∨ h.name = "" ∨ h.address = "" ∨ h.contact = "" then
    p.emit (Event.alert "Please fill all required fields")
  else if JSNum.le h.total_beds h.icu_beds then
    p.emit (Event.alert "Total beds must be greater than ICU beds")
  else
    let p := p.emit (Event.fetch "POST" "/register" (some h.toBody))
    match registerHospitalBody h r p with
    | Completion.normal q => q
    | Completion.thrown q =>
      (q.emit (Event.alert "Registration failed. Please try again.")).emit
        (Event.consoleError "Registration error:")

/-- The function `logout`: the `try` block awaits `fetch('/logout')`, then
clears `currentHospital` and shows the login page; the `catch` block logs the
error and shows the login page. -/
def logout (r : FetchResult) (p : Page) : Page :=
  let p := p.emit (Event.fetch "GET" "/logout" none)
  match r with
  | FetchResult.response _ _ _ => showLoginPage { p with currentHospital := none }
  | FetchResult.rejected => showLoginPage (p.emit (Event.consoleError "Logout error:"))

/-! ## Allocation, extension and discharge -/

/-- The object `patientData` that `allocateBed` reads from the form. -/
structure PatientData where
  patient_name : String
  age : JSNum
  blood_group : String
  admission_cause : String
  heart_rate : JSNum
  blood_pressure_systolic : JSNum
  blood_pressure_diastolic : JSNum
  spO2 : JSNum
  temperature : JSNum
  health_risk : String
  doctor_recommendation : String

/-- The allocation form as `allocateBed` reads it. -/
def readPatientData (p : Page) : PatientData :=
  { patient_name := p.value "patientName"
    age := parseInt (p.value "patientAge")
    blood_group := p.value "patientBlood"
    admission_cause := p.value "admissionCause"
    heart_rate := parseInt (p.value "patientHR")
    blood_pressure_systolic := parseInt (p.value "patientBPSys")
    blood_pressure_diastolic := parseInt (p.value "patientBPDia")
    spO2 := parseInt (p.value "patientSpO2")
    temperature := parseFloat (p.value "patientTemp")
    health_risk := p.value "healthRisk"
    doctor_recommendation := p.value "doctorRecommendation" }

/-- The body `JSON.stringify(patientData)`. -/
def PatientData.toBody (d : PatientData) : List (String × Scalar) :=
  [("patient_name", Scalar.str d.patient_name), ("age", jsonNumber d.age),
   ("blood_group", Scalar.str d.blood_group), ("admission_cause", Scalar.str d.admission_cause),
   ("heart_rate", jsonNumber d.heart_rate),
   ("blood_pressure_systolic", jsonNumber d.blood_pressure_systolic),
   ("blood_pressure_diastolic", jsonNumber d.blood_pressure_diastolic),
   ("spO2", jsonNumber d.spO2), ("temperature", jsonNumber d.temperature),
   ("health_risk", Scalar.str d.health_risk),
   ("doctor_recommendation", Scalar.str d.doctor_recommendation)]

/-- The validation of `allocateBed`:
`!patient_name || !age || !admission_cause || !heart_rate || !spO2 || !temperature`. -/
def PatientData.rejected (d : PatientData) : Bool :=
  d.patient_name == "" || !d.age.truthy || d.admission_cause == "" ||
  !d.heart_rate.truthy || !d.spO2.truthy || !d.temperature.truthy

/-- The alert of the validation of `allocateBed`. -/
def allocateValidationAlert : String :=
  "Please fill all required fields, including vital signs."

/-- The success notification of `allocateBed`. -/
def allocatedMessage (data : Val) : String :=
  "Bed allocated successfully! ML Severity: " ++ (data.prop "ml_severity").toStr
    ++ ", Risk: " ++ (data.prop "risk_flag").toStr
    ++ ", Bed: " ++ (data.prop "bed_id").toStr
    ++ ", Admission: " ++ (data.prop "admission_date").toStr

/-- The `try` block of `allocateBed` after the request.  The form reset is
recorded in the log (the default values of the form are not in the script). -/
def allocateBedBody (r : FetchResult) (arrivals : List (View × FetchResult)) (p : Page) : Completion :=
  match r with
  | FetchResult.rejected => Completion.thrown p
  | FetchResult.response _ _ none => Completion.thrown p
  | FetchResult.response _ _ (some data) =>
    match data.get "success" with
    | none => Completion.thrown p
    | some success =>
      if success.truthy then
        let p := showNotification (Val.str (allocatedMessage data)) "success" p
        let p := p.emit Event.formReset
        Completion.normal (refreshAll arrivals p)
      else Completion.normal (showNotification (data.prop "message") "error" p)

/-- The function `allocateBed`; `r` answers `POST /api/allocate-bed` and
`arrivals` are the responses to the refresh after a success. -/
def allocateBed (r : FetchResult) (arrivals : List (View × FetchResult)) (p : Page) : Page :=
  let p := p.emit Event.preventDefault
  let patientData := readPatientData p
  if patientData.rejected then p.emit (Event.alert allocateValidationAlert)
  else
    let p := p.emit (Event.fetch "POST" "/api/allocate-bed" (some patientData.toBody))
    match allocateBedBody r arrivals p with
    | Completion.normal q => q
    | Completion.thrown q =>
      (showNotification (Val.str "Error allocating bed. Please try again.") "error" q).emit
        (Event.consoleError "Allocation error:")

/-- The `try` block of `extendStay` after the request. -/
def extendStayBody (r : FetchResult) (arrivals : List (View × FetchResult)) (p : Page) : Completion :=
  match r with
  | FetchResult.rejected => Completion.thrown p
  | FetchResult.response _ _ none => Completion.thrown p
  | FetchResult.response _ _ (some data) =>
    match data.get "success" with
    | none => Completion.thrown p
    | some success =>
      if success.truthy then
        Completion.normal (refreshAll arrivals (showNotification (data.prop "message") "success" p))
      else Completion.normal (showNotification (data.prop "message") "error" p)

/-- The function `extendStay`; `confirmed` is the answer to the `confirm`
dialog. -/
def extendStay (patientId patientName : String) (confirmed : Bool) (r : FetchResult)
    (arrivals : List (View × FetchResult)) (p : Page) : Page :=
  let p := p.emit (Event.confirm ("Extend stay for " ++ patientName ++ " by 2 days?"))
  if !confirmed then p
  else
    let p := p.emit (Event.fetch "POST" "/api/extend-stay" (some [("patient_id", Scalar.str patientId)]))
    match extendStayBody r arrivals p with
    | Completion.normal q => q
    | Completion.thrown q =>
      (showNotification (Val.str "Error extending stay. Please try again.") "error" q).emit
        (Event.consoleError "Extend stay error:")

/-- The `try` block of `dischargePatient` after the request. -/
def dischargePatientBody (r : FetchResult) (arrivals : List (View × FetchResult))
    (p : Page) : Completion :=
  match r with
  | FetchResult.rejected => Completion.thrown p
  | FetchResult.response _ _ none => Completion.thrown p
  | FetchResult.response _ _ (some data) =>
    match data.get "success" with
    | none => Completion.thrown p
    | some success =>
      if success.truthy then
        Completion.normal (refreshAll arrivals (showNotification (data.prop "message") "success" p))
      else Completion.normal (showNotification (data.prop "message") "error" p)

/-- The function `dischargePatient`; `confirmed` is the answer to the `confirm`
dialog. -/
def dischargePatient (patientId patientName : String) (confirmed : Bool) (r : FetchResult)
    (arrivals : List (View × FetchResult)) (p : Page) : Page :=
  let p := p.emit (Event.confirm
    ("Are you sure you want to discharge " ++ patientName ++ "? This will free up their bed."))
  if !confirmed then p
  else
    let p := p.emit (Event.fetch "POST" "/api/discharge-patient"
      (some [("patient_id", Scalar.str patientId)]))
    match dischargePatientBody r arrivals p with
    | Completion.normal q => q
    | Completion.thrown q =>
      (showNotification (Val.str "Error discharging patient. Please try again.") "error" q).emit
        (Event.consoleError "Discharge error:")

/-! ## Reading a log -/

/-- The page a `try` block leaves behind. -/
def Completion.page : Completion → Page
  | Completion.normal p => p
  | Completion.thrown p => p

/-- The requests in a log, oldest first. -/
def fetches (log : List Event) : List Event :=
  log.filter (fun e => match e with | Event.fetch _ _ _ => true | _ => false)

/-- A page showing the login form, every field empty, nothing logged. -/
def blankPage : Page :=
  { currentHospital := none
    loginPageActive := true
    dashboardPageActive := false
    loginFormDisplay := "block"
    registerFormDisplay := "none"
    value := fun _ => ""
    innerHTML := fun _ => ""
    textContent := fun _ => ""
    toast := none
    log := [] }

/-- The dashboard of the logged-in hospital `H1`, every field empty. -/
def dashboardPage : Page :=
  { blankPage with
    currentHospital := some { id := "H1", name := Val.str "General" }
    loginPageActive := false
    dashboardPageActive := true }

/-- The dashboard with the allocation form filled in: the six required fields
hold the given texts, the optional ones are empty. -/
def allocationForm (name age cause hr spO2 temp : String) : Page :=
  { dashboardPage with
    value := fun k =>
      if k = "patientName" then name
      else if k = "patientAge" then age
      else if k = "admissionCause" then cause
      else if k = "patientHR" then hr
      else if k = "patientSpO2" then spO2
      else if k = "patientTemp" then temp
      else "" }

/-- The login page with the registration form filled in. -/
def registrationForm (id name address contact beds icuBeds password : String) : Page :=
  { blankPage with
    loginFormDisplay := "none"
    registerFormDisplay := "block"
    value := fun k =>
      if k = "regHospitalId" then id
      else if k = "regHospitalName" then name
      else if k = "regAddress" then address
      else if k = "regContact" then contact
      else if k = "regBeds" then beds
      else if k = "regIcuBeds" then icuBeds
      else if k = "regPassword" then password
      else "" }

/-- The login page with the login form filled in. -/
def loginForm (hospitalId password : String) : Page :=
  { blankPage with
    value := fun k =>
      if k = "hospitalId" then hospitalId
      else if k = "password" then password
      else "" }

/-- The body `{"error": true}` that an `/api/*` endpoint answers without a
session, in a response with status 200. -/
def sessionExpired : FetchResult :=
  FetchResult.response true 200 (some (Val.obj [("error", Val.bool true)]))

/-- The eight data cells of a patient row and the opening of the ninth, in
which the buttons stand. -/
def patientCells (patient : Val) : String :=
  "\n                <tr>\n                    <td>" ++ (patient.prop "name").toStr
    ++ "</td>\n                    <td>" ++ (patient.prop "age").toStr
    ++ "</td>\n                    <td>" ++ (patient.prop "blood_group").toStr
    ++ "</td>\n                    <td>" ++ (patient.prop "condition").toStr
    ++ "</td>\n                    <td><span class=\"badge " ++ (patient.prop "severity").toStr
    ++ "\">" ++ (patient.prop "severity").toStr
    ++ "</span></td>\n                    <td>" ++ (patient.prop "bed_id").toStr
    ++ "</td>\n                    <td>" ++ (patient.prop "admission_date").toStr
    ++ "</td>\n                    <td>"
    ++ ((patient.prop "expected_discharge").orElse (Val.str "N/A")).toStr
    ++ "</td>\n                    <td>\n                        "

/-- The buttons of a patient row: the `Extend 2 Days` button when `can_extend`
is truthy, then the `Discharge` button, each calling with the id and the name
of the patient. -/
def patientButtons (patient : Val) : String :=
  (if (patient.prop "can_extend").truthy then
      extendButton (patient.prop "id").toStr (patient.prop "name").toStr
    else "")
    ++ "\n                        "
    ++ dischargeButton (patient.prop "id").toStr (patient.prop "name").toStr

/-- The end of a patient row after the buttons. -/
def patientRowEnd : String :=
  "\n                    </td>\n                </tr>\n            "

/-- The text `needle` occurs somewhere in `markup`. -/
def occursIn (needle : List Char) : List Char → Bool
  | [] => needle.isEmpty
  | c :: cs => needle.isPrefixOf (c :: cs) || occursIn needle cs

/-- Read from their first characters on, `needle` and `text` differ at a
position that both have. -/
def differsWithin : List Char → List Char → Bool
  | n :: ns, c :: cs => if n == c then differsWithin ns cs else true
  | _, _ => false

/-- At no position of `text` does an occurrence of `needle` start, whatever
follows `text`. -/
def clearOf (needle : List Char) : List Char → Bool
  | [] => true
  | c :: cs => differsWithin needle (c :: cs) && clearOf needle cs

/-- The start of an `Extend 2 Days` button, up to the first argument of the
call. -/
def extendButtonStart : String :=
  "<button class=\"btn btn-sm btn-success\" onclick=\"extendStay('"

/-- The start of a `Discharge` button, up to the first argument of the call. -/
def dischargeButtonStart : String :=
  "<button class=\"btn btn-sm btn-warning\" onclick=\"dischargePatient('"

/-- No text that the row template takes from the patient holds a `<`. -/
def plainFields (patient : Val) : Prop :=
  '<' ∉ (patient.prop "name").toStr.data
    ∧ '<' ∉ (patient.prop "age").toStr.data
    ∧ '<' ∉ (patient.prop "blood_group").toStr.data
    ∧ '<' ∉ (patient.prop "condition").toStr.data
    ∧ '<' ∉ (patient.prop "severity").toStr.data
    ∧ '<' ∉ (patient.prop "bed_id").toStr.data
    ∧ '<' ∉ (patient.prop "admission_date").toStr.data
    ∧ '<' ∉ ((patient.prop "expected_discharge").orElse (Val.str "N/A")).toStr.data
    ∧ '<' ∉ (patient.prop "id").toStr.data

/-! ## Lemmas -/

theorem parseInt_empty : parseInt "" = JSNum.nan := by decide

theorem parseFloat_empty : parseFloat "" = JSNum.nan := by decide

theorem get_eq_some_prop (v : Val) (key : String) (h : v ≠ Val.null ∧ v ≠ Val.undefined) :
    v.get key = some (v.prop key) := by
  cases v <;> simp_all [Val.prop, Val.get]
  split <;> rfl

theorem fetches_append (l m : List Event) : fetches (l ++ m) = fetches l ++ fetches m := by
  simp [fetches]

/-- C1: when one of the six required fields of the allocation form is missing
(the name or the admission cause is the empty text; the age, heart rate, SpO2
or temperature field is empty or parses to `NaN`), `allocateBed` only calls
`preventDefault` and shows the validation alert: the log gains these two
entries and no request, and nothing else on the page changes, whatever the
server would have answered. -/
theorem allocateBed_missing_field (r : FetchResult) (arrivals : List (View × FetchResult)) (p : Page)
    (h : p.value "patientName" = ""
      ∨ (p.value "patientAge" = "" ∨ parseInt (p.value "patientAge") = JSNum.nan)
      ∨ p.value "admissionCause" = ""
      ∨ (p.value "patientHR" = "" ∨ parseInt (p.value "patientHR") = JSNum.nan)
      ∨ (p.value "patientSpO2" = "" ∨ parseInt (p.value "patientSpO2") = JSNum.nan)
      ∨ (p.value "patientTemp" = "" ∨ parseFloat (p.value "patientTemp") = JSNum.nan)) :
    allocateBed r arrivals p =
        { p with log := p.log ++ [Event.preventDefault, Event.alert allocateValidationAlert] }
      ∧ fetches (allocateBed r arrivals p).log = fetches p.log := by
  have hrej : (readPatientData (p.emit Event.preventDefault)).rejected = true := by
    simp only [PatientData.rejected, readPatientData, Page.emit, Bool.or_eq_true,
      Bool.not_eq_true', beq_iff_eq]
    rcases h with h | (h | h) | h | (h | h) | (h | h) | (h | h) <;>
      simp [h, parseInt_empty, parseFloat_empty, JSNum.truthy]
  have hpage : allocateBed r arrivals p =
      { p with log := p.log ++ [Event.preventDefault, Event.alert allocateValidationAlert] } := by
    simp only [allocateBed, hrej, if_true]
    simp [Page.emit]
  refine ⟨hpage, ?_⟩
  rw [hpage]
  simp [fetches]

/-- Witness of C1: a form whose heart rate field holds `abc`. -/
theorem allocateBed_missing_field_witness :
    (allocateBed sessionExpired [] (allocationForm "Ann" "30" "fever" "abc" "97" "36.6")).log
      = [Event.preventDefault, Event.alert allocateValidationAlert] := by
  have h := (allocateBed_missing_field sessionExpired []
    (allocationForm "Ann" "30" "fever" "abc" "97" "36.6")
    (Or.inr (Or.inr (Or.inr (Or.inl (Or.inr (by decide))))))).1
  rw [h]; rfl

/-- C7: at the form `Ann`, age `0`, cause `fever`, heart rate `80`, SpO2 `97`,
temperature `36.6` every required field is present and parses to a number, yet
`allocateBed` shows the validation alert and sends nothing; the same form with
age `1` sends the request. -/
theorem allocateBed_age_zero (r : FetchResult) (arrivals : List (View × FetchResult)) :
    parseInt "0" = JSNum.dec 0 0
      ∧ (allocateBed r arrivals (allocationForm "Ann" "0" "fever" "80" "97" "36.6")).log
          = [Event.preventDefault, Event.alert allocateValidationAlert]
      ∧ (allocateBed FetchResult.rejected arrivals (allocationForm "Ann" "1" "fever" "80" "97" "36.6")).log
          = [Event.preventDefault,
             Event.fetch "POST" "/api/allocate-bed"
               (some (readPatientData (allocationForm "Ann" "1" "fever" "80" "97" "36.6")).toBody),
             Event.showNotification "Error allocating bed. Please try again." "error",
             Event.consoleError "Allocation error:"] := by
  exact ⟨by decide, rfl, rfl⟩

/-! ## Validation of the registration form -/

theorem registerHospitalBody_fetches (h : HospitalData) (r : FetchResult) (p : Page) :
    fetches (registerHospitalBody h r p).page.log = fetches p.log := by
  unfold registerHospitalBody
  repeat' split
  all_goals simp [Completion.page, showLogin, Page.emit, Page.setValue, fetches]

/-- Once the registration form passes the two checks, `registerHospital` sends
`POST /register` with the form as read, and no other request, whatever the
server answers. -/
theorem registerHospital_fetches (r : FetchResult) (p : Page)
    (hfields : p.value "regHospitalId" ≠ "" ∧ p.value "regHospitalName" ≠ ""
      ∧ p.value "regAddress" ≠ "" ∧ p.value "regContact" ≠ "")
    (hbeds : JSNum.le (parseInt (p.value "regBeds")) (parseInt (p.value "regIcuBeds")) = false) :
    fetches (registerHospital r p).log
      = fetches p.log ++ [Event.fetch "POST" "/register" (some (readHospitalData p).toBody)] := by
  have hbody := registerHospitalBody_fetches (readHospitalData p) r
    (p.emit (Event.fetch "POST" "/register" (some (readHospitalData p).toBody)))
  have hpass : registerHospital r p
      = (match registerHospitalBody (readHospitalData p) r
            (p.emit (Event.fetch "POST" "/register" (some (readHospitalData p).toBody))) with
        | Completion.normal q => q
        | Completion.thrown q =>
          (q.emit (Event.alert "Registration failed. Please try again.")).emit
            (Event.consoleError "Registration error:")) := by
    simp [registerHospital, readHospitalData, hfields.1, hfields.2.1, hfields.2.2.1,
      hfields.2.2.2, hbeds]
  rw [hpass]
  cases hb : registerHospitalBody (readHospitalData p) r
      (p.emit (Event.fetch "POST" "/register" (some (readHospitalData p).toBody))) with
  | normal q =>
    rw [hb] at hbody
    simp only [Completion.page] at hbody
    simp only [hbody, Page.emit, fetches_append]
    simp [fetches]
  | thrown q =>
    rw [hb] at hbody
    simp only [Completion.page] at hbody
    simp only [Page.emit, fetches_append, hbody]
    simp [fetches]

/-- C2: at a registration form whose two bed-count fields are empty, both counts
parse to `NaN`, the comparison `total_beds <= icu_beds` is false, and
`registerHospital` sends `POST /register` with `total_beds` and `icu_beds`
written as `null`, whatever the server then answers. -/
theorem registerHospital_empty_bed_counts (r : FetchResult) :
    parseInt "" = JSNum.nan
      ∧ JSNum.le JSNum.nan JSNum.nan = false
      ∧ fetches (registerHospital r
          (registrationForm "H1" "General" "1 Main St" "555" "" "" "pw")).log
        = [Event.fetch "POST" "/register"
             (some [("hospital_id", Scalar.str "H1"), ("name", Scalar.str "General"),
                    ("address", Scalar.str "1 Main St"), ("contact", Scalar.str "555"),
                    ("total_beds", Scalar.null), ("icu_beds", Scalar.null),
                    ("password", Scalar.str "pw")])] := by
  refine ⟨by decide, rfl, ?_⟩
  rw [registerHospital_fetches r _ (by decide) (by decide)]
  rfl

/-! ## Session expiry -/

/-- C3: answered with the body `{"error": true}`, each of the three load
functions shows the login page, while `allocateBed`, `extendStay` and
`dischargePatient` show the notification `undefined` and never call
`showLoginPage`: the dashboard stays the active page. -/
theorem error_body_on_actions (arrivals : List (View × FetchResult)) :
    Event.showLoginPage ∈ (loadDashboardData sessionExpired dashboardPage).log
      ∧ Event.showLoginPage ∈ (loadAvailableBeds sessionExpired dashboardPage).log
      ∧ Event.showLoginPage ∈ (loadAllocatedPatients sessionExpired dashboardPage).log
      ∧ (allocateBed sessionExpired arrivals (allocationForm "Ann" "30" "fever" "80" "97" "36.6")).log
          = [Event.preventDefault,
             Event.fetch "POST" "/api/allocate-bed"
               (some (readPatientData (allocationForm "Ann" "30" "fever" "80" "97" "36.6")).toBody),
             Event.showNotification "undefined" "error"]
      ∧ (allocateBed sessionExpired arrivals
          (allocationForm "Ann" "30" "fever" "80" "97" "36.6")).loginPageActive = false
      ∧ (extendStay "7" "Ann" true sessionExpired arrivals dashboardPage).log
          = [Event.confirm "Extend stay for Ann by 2 days?",
             Event.fetch "POST" "/api/extend-stay" (some [("patient_id", Scalar.str "7")]),
             Event.showNotification "undefined" "error"]
      ∧ (extendStay "7" "Ann" true sessionExpired arrivals dashboardPage).loginPageActive = false
      ∧ (dischargePatient "7" "Ann" true sessionExpired arrivals dashboardPage).log
          = [Event.confirm "Are you sure you want to discharge Ann? This will free up their bed.",
             Event.fetch "POST" "/api/discharge-patient" (some [("patient_id", Scalar.str "7")]),
             Event.showNotification "undefined" "error"]
      ∧ (dischargePatient "7" "Ann" true sessionExpired arrivals dashboardPage).loginPageActive
          = false := by
  refine ⟨?_, ?_, ?_, rfl, rfl, rfl, rfl, rfl, rfl⟩
  · have h : (loadDashboardData sessionExpired dashboardPage).log
        = [Event.fetch "GET" "/api/dashboard-data" none, Event.alert "Please login again",
           Event.showLoginPage] := rfl
    rw [h]; decide
  · have h : (loadAvailableBeds sessionExpired dashboardPage).log
        = [Event.fetch "GET" "/api/available-beds" none, Event.alert "Please login again",
           Event.showLoginPage] := rfl
    rw [h]; decide
  · have h : (loadAllocatedPatients sessionExpired dashboardPage).log
        = [Event.fetch "GET" "/api/allocated-patients" none, Event.alert "Please login again",
           Event.showLoginPage] := rfl
    rw [h]; decide

/-! ## Logout -/

/-- C10: when `fetch('/logout')` rejects, `logout` shows the login page but leaves
`currentHospital` as it was, here still the hospital `H1`; when the request is
answered, `currentHospital` is cleared. -/
theorem logout_rejected_keeps_hospital (p : Page) (ok : Bool) (status : Nat) (body : Option Val) :
    (logout FetchResult.rejected p).currentHospital = p.currentHospital
      ∧ ((logout FetchResult.rejected dashboardPage).currentHospital.map (fun h => h.id)) = some "H1"
      ∧ (logout FetchResult.rejected p).loginPageActive = true
      ∧ ((logout (FetchResult.response ok status body) p).currentHospital.map (fun h => h.id)) = none
      ∧ (logout (FetchResult.response ok status body) p).loginPageActive = true := by
  exact ⟨rfl, rfl, rfl, rfl, rfl⟩

/-! ## Refresh after allocation, extension and discharge -/

theorem patientRow_eq (v : Val) (h : v ≠ Val.null ∧ v ≠ Val.undefined) :
    patientRow v = some (patientCells v ++ patientButtons v ++ patientRowEnd) := by
  simp only [patientRow, extendSlot, get_eq_some_prop v _ h, Option.bind_eq_bind, Option.some_bind,
    Option.pure_def, patientCells, patientButtons, patientRowEnd]
  split <;> simp [String.append_assoc]

theorem isPrefixOf_of_differsWithin (needle text rest : List Char)
    (h : differsWithin needle text = true) : needle.isPrefixOf (text ++ rest) = false := by
  induction needle generalizing text with
  | nil => simp [differsWithin] at h
  | cons n ns ih =>
    cases text with
    | nil => simp [differsWithin] at h
    | cons c cs =>
      by_cases hnc : (n == c) = true
      · have hrest : differsWithin ns cs = true := by simpa [differsWithin, hnc] using h
        simp [List.isPrefixOf, hnc, ih cs hrest]
      · simp [List.isPrefixOf, hnc]

theorem occursIn_append_clear (needle text rest : List Char) (h : clearOf needle text = true) :
    occursIn needle (text ++ rest) = occursIn needle rest := by
  induction text with
  | nil => rfl
  | cons c cs ih =>
    have hboth : differsWithin needle (c :: cs) = true ∧ clearOf needle cs = true := by
      simpa [clearOf] using h
    have hp := isPrefixOf_of_differsWithin needle (c :: cs) rest hboth.1
    rw [List.cons_append] at hp ⊢
    simp [occursIn, hp, ih hboth.2]

theorem occursIn_append_plain (needle field rest : List Char) (h : '<' ∉ field) :
    occursIn ('<' :: needle) (field ++ rest) = occursIn ('<' :: needle) rest := by
  apply occursIn_append_clear
  induction field with
  | nil => rfl
  | cons c cs ih =>
    have hc : ('<' == c) = false := by
      simp only [beq_eq_false_iff_ne]
      intro hEq
      exact h (by rw [hEq]; exact List.mem_cons_self c cs)
    simp [clearOf, differsWithin, hc, ih (fun hmem => h (List.mem_cons_of_mem c hmem))]

theorem occursIn_self_append (needle rest : List Char) :
    occursIn needle (needle ++ rest) = true := by
  cases hn : needle ++ rest with
  | nil =>
    have : needle = [] := (List.append_eq_nil.mp hn).1
    simp [occursIn, this]
  | cons c cs =>
    have hp : needle.isPrefixOf (c :: cs) = true := by
      rw [← hn]
      exact List.isPrefixOf_iff_prefix.mpr (List.prefix_append needle rest)
    simp [occursIn, hp]

theorem occursIn_clear (needle text : List Char) (h : clearOf needle text = true)
    (hne : needle.isEmpty = false) : occursIn needle text = false := by
  have happ := occursIn_append_clear needle text [] h
  rw [List.append_nil] at happ
  rw [happ]
  simp [occursIn, hne]

theorem extend_start_in_row (v : Val) (hplain : plainFields v) :
    occursIn extendButtonStart.data (patientCells v ++ patientButtons v ++ patientRowEnd).data
      = (v.prop "can_extend").truthy := by
  obtain ⟨h1, h2, h3, h4, h5, h6, h7, h8, h9⟩ := hplain
  have hfield : ∀ field rest : List Char, '<' ∉ field →
      occursIn extendButtonStart.data (field ++ rest) = occursIn extendButtonStart.data rest :=
    fun field rest h => occursIn_append_plain _ field rest h
  have hlit : ∀ text rest : List Char, clearOf extendButtonStart.data text = true →
      occursIn extendButtonStart.data (text ++ rest) = occursIn extendButtonStart.data rest :=
    fun text rest h => occursIn_append_clear _ text rest h
  have c0 : clearOf extendButtonStart.data
      "\n                <tr>\n                    <td>".data = true := by decide
  have c1 : clearOf extendButtonStart.data "</td>\n                    <td>".data = true := by
    decide
  have c2 : clearOf extendButtonStart.data
      "</td>\n                    <td><span class=\"badge ".data = true := by decide
  have c3 : clearOf extendButtonStart.data "\">".data = true := by decide
  have c4 : clearOf extendButtonStart.data "</span></td>\n                    <td>".data = true := by
    decide
  have c5 : clearOf extendButtonStart.data
      "</td>\n                    <td>\n                        ".data = true := by decide
  have c6 : clearOf extendButtonStart.data "\n                        ".data = true := by decide
  have c7 : clearOf extendButtonStart.data
      "<button class=\"btn btn-sm btn-warning\" onclick=\"".data = true := by decide
  have c8 : clearOf extendButtonStart.data "dischargePatient".data = true := by decide
  have c9 : clearOf extendButtonStart.data "('".data = true := by decide
  have c10 : clearOf extendButtonStart.data "', '".data = true := by decide
  have c11 : clearOf extendButtonStart.data "')".data = true := by decide
  have c12 : clearOf extendButtonStart.data
      "\">\n                            Discharge\n                        </button>".data = true := by
    decide
  have c13 : occursIn extendButtonStart.data
      "\n                    </td>\n                </tr>\n            ".data = false :=
    occursIn_clear _ _ (by decide) (by decide)
  have hstart : ∀ id name : String, ∃ rest : List Char,
      (extendButton id name).data = extendButtonStart.data ++ rest := by
    intro id name
    refine ⟨id.data ++ ("', '".data ++ (name.data ++ ("')".data ++ "\" style=\"margin-bottom: 5px;\">\n                                Extend 2 Days\n                            </button><br>".data))), ?_⟩
    simp [extendButton, onclickCall, extendButtonStart, String.data_append]
  cases hc : (v.prop "can_extend").truthy
  · have hempty : ("" : String).data = [] := rfl
    simp only [patientCells, patientButtons, patientRowEnd, dischargeButton, onclickCall, hc,
      String.data_append, List.append_assoc, hempty, List.nil_append, Bool.false_eq_true, if_false]
    simp only [hlit _ _ c0, hlit _ _ c1, hlit _ _ c2, hlit _ _ c3, hlit _ _ c4, hlit _ _ c5,
      hlit _ _ c6, hlit _ _ c7, hlit _ _ c8, hlit _ _ c9, hlit _ _ c10, hlit _ _ c11,
      hlit _ _ c12, hfield _ _ h1, hfield _ _ h2, hfield _ _ h3, hfield _ _ h4, hfield _ _ h5,
      hfield _ _ h6, hfield _ _ h7, hfield _ _ h8, hfield _ _ h9, c13]
  · obtain ⟨rest, hrest⟩ := hstart (v.prop "id").toStr (v.prop "name").toStr
    simp only [patientCells, patientButtons, patientRowEnd, hc, if_true,
      String.data_append, List.append_assoc, hrest]
    simp only [hlit _ _ c0, hlit _ _ c1, hlit _ _ c2, hlit _ _ c3, hlit _ _ c4, hlit _ _ c5,
      hfield _ _ h1, hfield _ _ h2, hfield _ _ h3, hfield _ _ h4, hfield _ _ h5,
      hfield _ _ h6, hfield _ _ h7, hfield _ _ h8, occursIn_self_append]

theorem occursIn_of_infix (needle before rest : List Char) :
    occursIn needle (before ++ (needle ++ rest)) = true := by
  induction before with
  | nil => exact occursIn_self_append needle rest
  | cons c cs ih =>
    rw [List.cons_append]
    simp [occursIn, ih]

theorem patientRow_entry (v : Val) (row : String) (h : patientRow v = some row) :
    v ≠ Val.null ∧ v ≠ Val.undefined := by
  constructor <;> (intro hv; subst hv; simp [patientRow, Val.get] at h)

/-- The buttons in the text of a row that the template builds: the start of a
`Discharge` button always occurs in it; the start of an `Extend 2 Days` button
occurs in it when `can_extend` is truthy; and when no text taken from the
patient holds a `<`, it does not occur when `can_extend` is falsy. -/
theorem buttons_in_row_text (v : Val) (row : String) (hrow : patientRow v = some row) :
    occursIn dischargeButtonStart.data row.data = true
      ∧ ((v.prop "can_extend").truthy = true → occursIn extendButtonStart.data row.data = true)
      ∧ (plainFields v → (v.prop "can_extend").truthy = false →
          occursIn extendButtonStart.data row.data = false) := by
  have heq := patientRow_eq v (patientRow_entry v row hrow)
  rw [hrow] at heq
  have hrowEq : row = patientCells v ++ patientButtons v ++ patientRowEnd := Option.some.inj heq
  subst hrowEq
  refine ⟨?_, fun ht => ?_, fun hplain hf => ?_⟩
  · have hd : ∀ id name : String, ∃ rest : List Char,
        (dischargeButton id name).data = dischargeButtonStart.data ++ rest := by
      intro id name
      refine ⟨id.data ++ ("', '".data ++ (name.data ++ ("')".data ++ "\">\n                            Discharge\n                        </button>".data))), ?_⟩
      simp [dischargeButton, onclickCall, dischargeButtonStart, String.data_append]
    obtain ⟨rest, hrest⟩ := hd (v.prop "id").toStr (v.prop "name").toStr
    have hform : (patientCells v ++ patientButtons v ++ patientRowEnd).data
        = ((patientCells v).data ++ ((if (v.prop "can_extend").truthy = true then
              extendButton (v.prop "id").toStr (v.prop "name").toStr else "").data
            ++ "\n                        ".data))
          ++ (dischargeButtonStart.data ++ (rest ++ patientRowEnd.data)) := by
      simp only [patientButtons, String.data_append, List.append_assoc, hrest]
    rw [hform]
    exact occursIn_of_infix _ _ _
  · have he : ∀ id name : String, ∃ rest : List Char,
        (extendButton id name).data = extendButtonStart.data ++ rest := by
      intro id name
      refine ⟨id.data ++ ("', '".data ++ (name.data ++ ("')".data ++ "\" style=\"margin-bottom: 5px;\">\n                                Extend 2 Days\n                            </button><br>".data))), ?_⟩
      simp [extendButton, onclickCall, extendButtonStart, String.data_append]
    obtain ⟨rest, hrest⟩ := he (v.prop "id").toStr (v.prop "name").toStr
    have hform : (patientCells v ++ patientButtons v ++ patientRowEnd).data
        = (patientCells v).data
          ++ (extendButtonStart.data ++ (rest ++ ("\n                        ".data
            ++ ((dischargeButton (v.prop "id").toStr (v.prop "name").toStr).data
              ++ patientRowEnd.data)))) := by
      simp only [patientButtons, ht, if_true, String.data_append, List.append_assoc, hrest]
    rw [hform]
    exact occursIn_of_infix _ _ _
  · rw [extend_start_in_row v hplain, hf]

/-! ## Failed requests -/

end Serbas
